import Mathlib

/-!
# Verification of `aws-tagger` (`tagger/tagger.py`)

A shallow embedding of the tagging tool's core logic.  Python strings are
modelled as `List Char` (`PyStr`), Python dicts as association lists with a
`DecidableEq`-based lookup (`alookup`, the model of `dict.get`), and every
remote boto3 call is modelled by passing its outcome in explicitly
(`Except PyExn Unit` for a single call, `Nat → Except PyExn α` for the
attempt-indexed outcomes seen by the retry wrapper).  Each definition below is
named after, and translated line by line from, the Python function it embeds.
-/

set_option autoImplicit false

abbrev PyStr := List Char

/-- Coerce a Lean string literal to the `PyStr` model. -/
def pstr (s : String) : PyStr := s.toList

/-- Python `s.split(sep)` for a one-character separator: splits on every
occurrence and keeps empty segments; `''.split(sep) = ['']`. -/
def pySplit (sep : Char) : PyStr → List PyStr
  | [] => [[]]
  | c :: rest =>
    match pySplit sep rest with
    | [] => [[]]
    | p :: ps => if c = sep then [] :: p :: ps else (c :: p) :: ps

/-- Python `s.split(sep, 1)`: at most one split, at the first occurrence. -/
def pySplit1 (sep : Char) : PyStr → List PyStr
  | [] => [[]]
  | c :: rest =>
    if c = sep then [[], rest]
    else
      match pySplit1 sep rest with
      | [] => [[c]]
      | p :: ps => (c :: p) :: ps

/-- Python `needle in s` for strings: contiguous-substring containment. -/
def pyContains (needle : PyStr) : PyStr → Bool
  | [] => needle.isEmpty
  | c :: rest => needle.isPrefixOf (c :: rest) || pyContains needle rest

/-- Model of Python `dict.get(key)` / assoc-list lookup. -/
def alookup {α β : Type} [DecidableEq α] (a : α) : List (α × β) → Option β
  | [] => none
  | (k, v) :: rest => if k = a then some v else alookup a rest

/-- `_arn_to_name(resource_arn)`: `parts = arn.split(':'); name = parts[-1];
parts = name.split('/', 1); if len(parts) == 2: name = parts[-1]`. -/
def arn_to_name (resource_arn : PyStr) : PyStr :=
  let parts := pySplit ':' resource_arn
  let name := parts.getLastD []
  let parts2 := pySplit1 '/' name
  if parts2.length = 2 then parts2.getLastD [] else name

/-- `_dict_to_aws_tags(tags)`: keep pairs whose key starts with neither
`'aws:'` nor `'Name'` (note: `startswith('Name')`, not equality). -/
def dict_to_aws_tags (tags : List (PyStr × PyStr)) : List (PyStr × PyStr) :=
  tags.filter fun kv =>
    !((pstr "aws:").isPrefixOf kv.1) && !((pstr "Name").isPrefixOf kv.1)

/-- `_aws_tags_to_dict(aws_tags)`: keep pairs whose key does not start with
`'aws:'` (the inputs we apply it to have distinct keys, so the Python dict
comprehension is the identity reshaping of this list). -/
def aws_tags_to_dict (aws_tags : List (PyStr × PyStr)) : List (PyStr × PyStr) :=
  aws_tags.filter fun kv => !((pstr "aws:").isPrefixOf kv.1)

/-! ## Exceptions and the retry policy -/

/-- A Python exception as the taggers observe it: either a
`botocore.exceptions.ClientError` carrying `response["Error"]["Code"]`,
or any other exception (network/transport fault etc.). -/
inductive PyExn where
  | clientError (code : PyStr)
  | otherError
deriving DecidableEq, Repr

/-- `_is_retryable_exception(exception)` (identical in all five tagger
classes): `not isinstance(exception, ClientError) or
(exception.response["Error"]["Code"] in ['RequestLimitExceeded'])`. -/
def is_retryable_exception (e : PyExn) : Bool :=
  match e with
  | .otherError => true
  | .clientError code => List.elem code [pstr "RequestLimitExceeded"]

/-- The rate-limit error every `@retry` decorator retries on. -/
def rateLimitExn : PyExn := .clientError (pstr "RequestLimitExceeded")

/-- Modelled from the spec: the exponential backoff of the third-party retry
decorator (`wait_exponential_multiplier=1000`): the sleep after attempt `n`
is `1000 * 2 ^ n` milliseconds. -/
def expWait (attemptNum : Nat) : Nat := 1000 * 2 ^ attemptNum

/-- Modelled from the spec: the loop of the third-party `@retry` decorator
(`retry_on_exception=_is_retryable_exception, stop_max_delay=30000,
wait_exponential_multiplier=1000`).  `outcome n` is the result of the `n`-th
attempt (attempts are numbered from 1); after a failure the call is retried
iff the failure is retryable and the elapsed sleep time is still below the
30000 ms bound, otherwise the failure propagates.  Remote calls are modelled
as instantaneous, so elapsed time is the sum of the backoff sleeps.  The
sleeps `2000, 4000, 8000, 16000` reach the bound after four retries, so the
fuel `8` is never exhausted.  Returns the final result and the number of
attempts made. -/
def retryLoop {α : Type} (outcome : Nat → Except PyExn α) :
    Nat → Nat → Nat → Except PyExn α × Nat
  | 0, n, _ => (outcome n, n)
  | fuel + 1, n, elapsed =>
    match outcome n with
    | .ok a => (.ok a, n)
    | .error e =>
      if is_retryable_exception e = true ∧ elapsed < 30000 then
        retryLoop outcome fuel (n + 1) (elapsed + expWait n)
      else (.error e, n)

/-- The retry-wrapped call: final result. -/
def retryCall {α : Type} (outcome : Nat → Except PyExn α) : Except PyExn α :=
  (retryLoop outcome 8 1 0).1

/-- The retry-wrapped call: number of attempts made. -/
def retryAttempts {α : Type} (outcome : Nat → Except PyExn α) : Nat :=
  (retryLoop outcome 8 1 0).2

/-! ## The single-resource dispatcher -/

/-- The five per-type taggers owned by a `SingleResourceTagger`. -/
inductive TaggerKind where
  | ec2 | efs | rds | lb | elasticache
deriving DecidableEq, Repr

/-- The `self.taggers` dict built in `SingleResourceTagger.__init__`, in
construction order. -/
def taggersTable : List (PyStr × TaggerKind) :=
  [(pstr "ec2", .ec2),
   (pstr "elasticfilesystem", .efs),
   (pstr "rds", .rds),
   (pstr "elasticloadbalancing", .lb),
   (pstr "elasticache", .elasticache)]

/-- What `SingleResourceTagger.tag` does with one identifier. -/
inductive DispatchResult where
  | noop
  | delegate (k : TaggerKind)
  | unsupported
deriving DecidableEq, Repr

/-- `SingleResourceTagger.tag(resource_id, tags)`: empty id returns at once;
`'i-'` routes to ec2; `'arn:'` with more than 4 colon segments looks up
segment index 2 in the taggers dict; a `None` tagger prints
"Tagging is not support for this resource" and skips.  The function is total:
no identifier shape raises. -/
def SingleResourceTagger.tag (resource_id : PyStr) : DispatchResult :=
  if resource_id = [] then .noop
  else
    let tagger : Option TaggerKind :=
      if (pstr "i-").isPrefixOf resource_id then some .ec2
      else if (pstr "arn:").isPrefixOf resource_id then
        let parts := pySplit ':' resource_id
        if parts.length > 4 then alookup (parts.getD 2 []) taggersTable
        else none
      else none
    match tagger with
    | some k => .delegate k
    | none => .unsupported

/-! ## Per-type taggers (remote-call outcomes passed in explicitly) -/

/-- How one `tag` invocation of a per-type tagger ends: it returns normally
(`returned`, with the flag recording whether a "Resource not found"
diagnostic was printed), or an exception escapes (`raised`). -/
inductive TagOutcome where
  | returned (loggedNotFound : Bool)
  | raised (e : PyExn)
deriving DecidableEq, Repr

/-- Shared shape of `RDSTagger.tag` / `LBTagger.tag` / `ElasticacheTagger.tag`
after the remote call is made: the `try/except ClientError` block that
absorbs exactly one "not found" code and re-raises everything else.
`callResult` is the outcome of the retry-wrapped remote call. -/
def absorbNotFound (notFoundCode : PyStr) (callResult : Except PyExn Unit) :
    TagOutcome :=
  match callResult with
  | .ok _ => .returned false
  | .error (.clientError code) =>
    if List.elem code [notFoundCode] then .returned true
    else .raised (.clientError code)
  | .error .otherError => .raised .otherError

/-- `RDSTagger.tag(resource_arn, tags)` with `dryrun = False`: absorbs
`'DBInstanceNotFound'`. -/
def RDSTagger.tagResult (callResult : Except PyExn Unit) : TagOutcome :=
  absorbNotFound (pstr "DBInstanceNotFound") callResult

/-- The `except` block of `LBTagger.tag` with `dryrun = False`: absorbs
`'LoadBalancerNotFound'`. -/
def LBTagger.tagResult (callResult : Except PyExn Unit) : TagOutcome :=
  absorbNotFound (pstr "LoadBalancerNotFound") callResult

/-- `ElasticacheTagger.tag(resource_arn, tags)` with `dryrun = False`:
absorbs `'CacheClusterNotFound'`. -/
def ElasticacheTagger.tagResult (callResult : Except PyExn Unit) : TagOutcome :=
  absorbNotFound (pstr "CacheClusterNotFound") callResult

/-- `EFSTagger.tag(resource_arn, tags)` with `dryrun = False`: there is no
`try/except`, so every exception from the remote call escapes. -/
def EFSTagger.tagResult (callResult : Except PyExn Unit) : TagOutcome :=
  match callResult with
  | .ok _ => .returned false
  | .error e => .raised e

/-- The remote call `LBTagger.tag` issues: either
`alb.add_tags(ResourceArns=..., Tags=...)` (modern/application API) or
`elb.add_tags(LoadBalancerNames=..., Tags=...)` (classic API). -/
inductive LBCall where
  | alb (resourceArns : List PyStr) (tags : List (PyStr × PyStr))
  | elb (loadBalancerNames : List PyStr) (tags : List (PyStr × PyStr))
deriving DecidableEq, Repr

/-- The branch of `LBTagger.tag(resource_arn, tags)` choosing which remote
call to issue: `none` when `dryrun` suppresses the call, otherwise the alb
call with the full identifier when `':loadbalancer/app/' in resource_arn`,
else the elb call with `_arn_to_name(resource_arn)`. -/
def LBTagger.tagCall (dryrun : Bool) (resource_arn : PyStr)
    (tags : List (PyStr × PyStr)) : Option LBCall :=
  let elb_name := arn_to_name resource_arn
  let aws_tags := dict_to_aws_tags tags
  if dryrun then none
  else if pyContains (pstr ":loadbalancer/app/") resource_arn then
    some (.alb [resource_arn] aws_tags)
  else
    some (.elb [elb_name] aws_tags)

/-- The one `ec2.create_tags(Resources=..., Tags=...)` call `EC2Tagger.tag`
issues. -/
structure EC2CreateTagsCall where
  resources : List PyStr
  tags : List (PyStr × PyStr)
deriving DecidableEq, Repr

/-- `EC2Tagger.tag(instance_id, tags)`: `resource_ids = [instance_id]`
extended with `self.volume_cache.get(instance_id, [])`; with `dryrun` the
remote call is suppressed (`none`), otherwise exactly one combined
`create_tags` call is issued (`some`). -/
def EC2Tagger.tagCall (volume_cache : List (PyStr × List PyStr))
    (dryrun : Bool) (instance_id : PyStr) (tags : List (PyStr × PyStr)) :
    Option EC2CreateTagsCall :=
  let aws_tags := dict_to_aws_tags tags
  let resource_ids := instance_id :: (alookup instance_id volume_cache).getD []
  if dryrun then none else some ⟨resource_ids, aws_tags⟩

/-! ## The tabular (CSV) bulk dispatcher -/

/-- The region-resolution part of `CSVResourceTagger._lookup_tagger`:
`region = self.region; region_index = tag_index.get(self.region_column);
if region_index is not None: region = row[region_index];
if region == '': region = None`.  `none` is Python `None`, the
"unspecified region" sentinel. -/
def resolveRegion (selfRegion : Option PyStr) (tag_index : List (PyStr × Nat))
    (row : List PyStr) : Option PyStr :=
  let region := selfRegion
  let region1 :=
    match alookup (pstr "Region") tag_index with
    | some i => some (row.getD i [])
    | none => region
  if region1 = some [] then none else region1

/-- The mutable state of `CSVResourceTagger`'s per-region cache: the
`self.regional_tagger` dict (region ↦ dispatcher instance), with dispatcher
instances identified by a construction counter so that "the exact same
instance" is expressible. -/
structure TBState where
  cache : List (Option PyStr × Nat)
  counter : Nat
deriving DecidableEq, Repr

/-- The cache state at the start of a run (`self.regional_tagger = {}`). -/
def initTBState : TBState := ⟨[], 0⟩

/-- The cache part of `CSVResourceTagger._lookup_tagger`:
`tagger = self.regional_tagger.get(region); if tagger is None:
tagger = SingleResourceTagger(...); self.regional_tagger[region] = tagger`.
Returns the dispatcher used for the row and the updated state; a miss
constructs a fresh dispatcher (the current counter value). -/
def lookupTagger (st : TBState) (region : Option PyStr) : Nat × TBState :=
  match alookup region st.cache with
  | some t => (t, st)
  | none => (st.counter, ⟨(region, st.counter) :: st.cache, st.counter + 1⟩)

/-- A run over the rows' effective regions: the dispatcher id used for each
row, in order. -/
def runAssign : List (Option PyStr) → TBState → List Nat
  | [], _ => []
  | r :: rs, st =>
    let p := lookupTagger st r
    p.1 :: runAssign rs p.2

/-- A run over the rows' effective regions: the regions for which a fresh
dispatcher was constructed, in construction order. -/
def runConstructed : List (Option PyStr) → TBState → List (Option PyStr)
  | [], _ => []
  | r :: rs, st =>
    match alookup r st.cache with
    | some _ => runConstructed rs st
    | none => r :: runConstructed rs ⟨(r, st.counter) :: st.cache, st.counter + 1⟩

/-! ## Spec-side definitions

Restatements of spec sentences, used to compare the code's behaviour with the
spec's words (refinement claims).  These are translated from the spec, not
from the source. -/

/-- The wire projection as the spec states it: exclude keys starting with
`'aws:'` and keys *equal to* the display-name key `'Name'`. -/
def dict_to_aws_tags_spec (tags : List (PyStr × PyStr)) : List (PyStr × PyStr) :=
  tags.filter fun kv =>
    !((pstr "aws:").isPrefixOf kv.1) && !(kv.1 = pstr "Name")

/-- Display-name extraction as the spec states it: the final `':'` segment,
except that a segment containing *exactly one* `'/'` yields the part after
the slash. -/
def arn_to_name_spec (resource_arn : PyStr) : PyStr :=
  let seg := (pySplit ':' resource_arn).getLastD []
  if seg.count '/' = 1 then (seg.dropWhile (fun c => c ≠ '/')).tail else seg

/-- Display-name extraction as amended: the final `':'` segment, except that
a segment containing *at least one* `'/'` yields the part after the *first*
slash. -/
def arn_to_name_amended (resource_arn : PyStr) : PyStr :=
  let seg := (pySplit ':' resource_arn).getLastD []
  if '/' ∈ seg then (seg.dropWhile (fun c => c ≠ '/')).tail else seg

/-- Effective-region resolution as the spec states it: the row's region cell
if the column is present and the cell is non-empty, otherwise the configured
fallback region, otherwise the unspecified sentinel. -/
def resolveRegion_spec (selfRegion : Option PyStr)
    (tag_index : List (PyStr × Nat)) (row : List PyStr) : Option PyStr :=
  match alookup (pstr "Region") tag_index with
  | some i => if row.getD i [] ≠ [] then some (row.getD i []) else selfRegion
  | none => selfRegion

/-- Effective-region resolution as amended: the row's region cell if the
column is present and the cell is non-empty; the sentinel if the column is
present and the cell is empty (the configured fallback is *not* used then);
otherwise the configured fallback unless it is itself the empty string, in
which case the sentinel. -/
def resolveRegion_amended (selfRegion : Option PyStr)
    (tag_index : List (PyStr × Nat)) (row : List PyStr) : Option PyStr :=
  match alookup (pstr "Region") tag_index with
  | some i =>
    let cell := row.getD i []
    if cell = [] then none else some cell
  | none =>
    match selfRegion with
    | some r => if r = [] then none else some r
    | none => none

/-! ## Helper lemmas -/

theorem pySplit1_eq (sep : Char) (s : PyStr) :
    pySplit1 sep s =
      if sep ∈ s then
        [s.takeWhile (fun c => c ≠ sep), (s.dropWhile (fun c => c ≠ sep)).tail]
      else [s] := by
  induction s with
  | nil => simp [pySplit1]
  | cons c rest ih =>
    by_cases hc : c = sep
    · subst hc
      simp [pySplit1, List.takeWhile_cons, List.dropWhile_cons]
    · rw [pySplit1, if_neg hc, ih]
      by_cases hm : sep ∈ rest
      · simp [hm, List.mem_cons, hc, Ne.symm hc, List.takeWhile_cons,
          List.dropWhile_cons]
      · have : ¬ sep ∈ c :: rest := by
          simp [List.mem_cons, hm, Ne.symm hc]
        simp [hm, this]

theorem pySplit_ne_nil (sep : Char) (s : PyStr) : pySplit sep s ≠ [] := by
  cases s with
  | nil => simp [pySplit]
  | cons c rest =>
    rw [pySplit]
    cases h : pySplit sep rest with
    | nil => simp
    | cons p ps => by_cases hc : c = sep <;> simp [hc]

theorem alookup_cons_ne {α β : Type} [DecidableEq α] (a k : α) (v : β)
    (l : List (α × β)) (hne : k ≠ a) :
    alookup a ((k, v) :: l) = alookup a l := by
  simp [alookup, hne]

theorem alookup_cons_self {α β : Type} [DecidableEq α] (a : α) (v : β)
    (l : List (α × β)) : alookup a ((a, v) :: l) = some v := by
  simp [alookup]

/-! ## Claim C7: display-name extraction -/

/-- C7 counterexample: on `"a:b/c/d"` the final `':'` segment `"b/c/d"`
contains two slashes, so the claim ("exactly one '/'") predicts the whole
segment `"b/c/d"`, but `_arn_to_name` (Python `split('/', 1)`) returns
`"c/d"`, the part after the *first* slash. -/
theorem C7_counterexample :
    arn_to_name (pstr "a:b/c/d") = pstr "c/d"
    ∧ arn_to_name_spec (pstr "a:b/c/d") = pstr "b/c/d"
    ∧ arn_to_name (pstr "a:b/c/d") ≠ arn_to_name_spec (pstr "a:b/c/d") := by
  decide

/-- C7 (amended): for every fully-qualified identifier, display-name
extraction returns the final `':'`-delimited segment, except that when that
segment contains at least one `'/'` it returns the part after the first
slash. -/
theorem C7_arn_to_name_amended_correct :
    ∀ resource_arn : PyStr,
      arn_to_name resource_arn = arn_to_name_amended resource_arn := by
  intro arn
  unfold arn_to_name arn_to_name_amended
  simp only [pySplit1_eq]
  by_cases h : '/' ∈ (pySplit ':' arn).getLast?.getD []
  · simp [h]
  · simp [h]

/-! ## Claim C5: map-to-wire projection -/

/-- C5 counterexample: the key `"Named"` is not equal to `"Name"` and does
not carry the reserved prefix, so the claim says a pair must be produced;
but `_dict_to_aws_tags` tests `key.startswith('Name')` and silently drops
it. -/
theorem C5_counterexample :
    ¬ (pstr "Named" = pstr "Name")
    ∧ (pstr "aws:").isPrefixOf (pstr "Named") = false
    ∧ dict_to_aws_tags [(pstr "Named", pstr "v")] = []
    ∧ dict_to_aws_tags_spec [(pstr "Named", pstr "v")]
        = [(pstr "Named", pstr "v")] := by
  decide

/-- C5 (amended): the map-to-wire projection produces a pair for exactly
those keys that start with neither the reserved prefix `'aws:'` nor the
display-name key prefix `'Name'`, each pair carrying the key's value
unchanged; all other keys are silently excluded. -/
theorem C5_dict_to_aws_tags_amended_correct :
    ∀ (tags : List (PyStr × PyStr)) (k v : PyStr),
      (k, v) ∈ dict_to_aws_tags tags ↔
        ((k, v) ∈ tags
          ∧ (pstr "aws:").isPrefixOf k = false
          ∧ (pstr "Name").isPrefixOf k = false) := by
  intro tags k v
  simp [dict_to_aws_tags, List.mem_filter, and_assoc]

/-! ## Claim C6: wire round-trip -/

/-- C6 counterexample: the key `"NameX"` neither equals `"Name"` nor starts
with `'aws:'`, so by the claim it must survive the round trip; but the
map-to-wire projection drops every key starting with `'Name'`, so the
decoded map is empty. -/
theorem C6_counterexample :
    ¬ (pstr "NameX" = pstr "Name")
    ∧ (pstr "aws:").isPrefixOf (pstr "NameX") = false
    ∧ aws_tags_to_dict (dict_to_aws_tags [(pstr "NameX", pstr "w")]) = [] := by
  decide

/-- C6 (amended): composing wire-to-map after map-to-wire equals the input
restricted to the keys that start with neither `'aws:'` nor `'Name'`: every
such key reappears with its original value and in its original position, and
no other keys appear. -/
theorem C6_roundtrip_amended_correct :
    ∀ tags : List (PyStr × PyStr),
      aws_tags_to_dict (dict_to_aws_tags tags) =
        tags.filter fun kv =>
          !((pstr "aws:").isPrefixOf kv.1) && !((pstr "Name").isPrefixOf kv.1) := by
  intro tags
  unfold aws_tags_to_dict dict_to_aws_tags
  rw [List.filter_filter]
  congr 1
  funext kv
  cases h1 : (pstr "aws:").isPrefixOf kv.1
    <;> cases h2 : (pstr "Name").isPrefixOf kv.1 <;> simp [h1, h2]

/-! ## Claim C4: effective-region resolution -/

/-- C4 counterexample: with configured fallback region `"us-west-2"`, a row
whose `Region` cell is present but empty resolves to the unspecified
sentinel (`None`), not to the fallback as the claim states: the source first
overwrites `region` with the (empty) cell and only then maps `''` to
`None`. -/
theorem C4_counterexample :
    resolveRegion (some (pstr "us-west-2"))
        [(pstr "Region", 0), (pstr "Id", 1)] [pstr "", pstr "i-abc"] = none
    ∧ resolveRegion_spec (some (pstr "us-west-2"))
        [(pstr "Region", 0), (pstr "Id", 1)] [pstr "", pstr "i-abc"]
        = some (pstr "us-west-2") := by
  decide

/-- C4 (amended): the effective region is the row's region-column value when
that column is present and the cell is non-empty; when the column is present
and the cell is empty, the unspecified sentinel (the configured fallback is
ignored); when the column is absent, the configured fallback unless it is
itself empty, in which case the sentinel. -/
theorem C4_resolve_region_amended_correct :
    ∀ (selfRegion : Option PyStr) (tag_index : List (PyStr × Nat))
      (row : List PyStr),
      resolveRegion selfRegion tag_index row =
        resolveRegion_amended selfRegion tag_index row := by
  intro sr ti row
  unfold resolveRegion resolveRegion_amended
  cases h : alookup (pstr "Region") ti with
  | some i => by_cases hc : row.getD i [] = [] <;> simp [hc]
  | none =>
    cases sr with
    | none => simp
    | some r => by_cases hr : r = [] <;> simp [hr]

/-! ## Claim C1: single-resource dispatch -/

theorem isPrefixOf_ne_nil {p : PyStr} {s : PyStr} (hp : p ≠ [])
    (h : List.isPrefixOf p s = true) : s ≠ [] := by
  cases p with
  | nil => exact absurd rfl hp
  | cons a l =>
    cases s with
    | nil => simp [List.isPrefixOf] at h
    | cons b t => exact List.cons_ne_nil b t

theorem arn_prefix_not_i {s : PyStr}
    (h : List.isPrefixOf (pstr "arn:") s = true) :
    List.isPrefixOf (pstr "i-") s = false := by
  cases s with
  | nil => simp [List.isPrefixOf] at h
  | cons c rest =>
    have h' : (('a' == c) && List.isPrefixOf (pstr "rn:") rest) = true := h
    have hc : c = 'a' := by
      rcases Bool.and_eq_true_iff.mp h' with ⟨h1, _⟩
      exact (eq_of_beq h1).symm
    subst hc
    show (('i' == 'a') && List.isPrefixOf (pstr "-") rest) = false
    rw [show ('i' == 'a') = false from by decide, Bool.false_and]

/-- C1: the single-resource dispatcher.  The empty identifier is a no-op with
no error; an identifier starting with `'i-'` routes to the compute (ec2)
tagger; one starting with `'arn:'` that splits on `':'` into more than 4
segments routes to the tagger selected by segment index 2 in the five-entry
taggers dict; any other identifier (fewer than 5 segments, unknown
discriminator, or neither prefix) yields the "not supported" diagnostic and
a skip — `SingleResourceTagger.tag` is total, so no identifier raises.
Within the load-balancer tagger, an identifier containing
`':loadbalancer/app/'` uses the modern (alb) API with the full identifier,
any other the classic (elb) API with the extracted name. -/
theorem C1_single_resource_dispatch :
    (SingleResourceTagger.tag (pstr "") = .noop)
    ∧ (∀ s : PyStr, (pstr "i-").isPrefixOf s = true →
        SingleResourceTagger.tag s = .delegate .ec2)
    ∧ (∀ (s : PyStr) (k : TaggerKind), (pstr "arn:").isPrefixOf s = true →
        4 < (pySplit ':' s).length →
        alookup ((pySplit ':' s).getD 2 []) taggersTable = some k →
        SingleResourceTagger.tag s = .delegate k)
    ∧ (∀ s : PyStr, s ≠ [] → (pstr "i-").isPrefixOf s = false →
        ((pstr "arn:").isPrefixOf s = false
          ∨ (pySplit ':' s).length ≤ 4
          ∨ alookup ((pySplit ':' s).getD 2 []) taggersTable = none) →
        SingleResourceTagger.tag s = .unsupported)
    ∧ (∀ (arn : PyStr) (tags : List (PyStr × PyStr)),
        (pyContains (pstr ":loadbalancer/app/") arn = true →
          LBTagger.tagCall false arn tags
            = some (.alb [arn] (dict_to_aws_tags tags)))
        ∧ (pyContains (pstr ":loadbalancer/app/") arn = false →
          LBTagger.tagCall false arn tags
            = some (.elb [arn_to_name arn] (dict_to_aws_tags tags)))) := by
  refine ⟨by decide, ?_, ?_, ?_, ?_⟩
  · intro s h
    have hne : s ≠ [] := isPrefixOf_ne_nil (by decide) h
    simp [SingleResourceTagger.tag, hne, h]
  · intro s k harn hlen hlook
    have hne : s ≠ [] := isPrefixOf_ne_nil (by decide) harn
    have hi : (pstr "i-").isPrefixOf s = false := arn_prefix_not_i harn
    have hlook' : alookup ((pySplit ':' s)[2]?.getD []) taggersTable = some k := by
      simpa [List.getD_eq_getElem?_getD] using hlook
    simp [SingleResourceTagger.tag, hne, hi, harn, hlen, hlook']
  · intro s hne hi hcase
    rcases hcase with harn | hlen | hlook
    · simp [SingleResourceTagger.tag, hne, hi, harn]
    · by_cases harn : (pstr "arn:").isPrefixOf s = true
      · simp [SingleResourceTagger.tag, hne, hi, harn, Nat.not_lt.mpr hlen]
      · simp only [Bool.not_eq_true] at harn
        simp [SingleResourceTagger.tag, hne, hi, harn]
    · by_cases harn : (pstr "arn:").isPrefixOf s = true
      · by_cases hlen : 4 < (pySplit ':' s).length
        · have hlook' : alookup ((pySplit ':' s)[2]?.getD []) taggersTable = none := by
            simpa [List.getD_eq_getElem?_getD] using hlook
          simp [SingleResourceTagger.tag, hne, hi, harn, hlen, hlook']
        · simp [SingleResourceTagger.tag, hne, hi, harn, hlen]
      · simp only [Bool.not_eq_true] at harn
        simp [SingleResourceTagger.tag, hne, hi, harn]
  · intro arn tags
    constructor
    · intro h
      simp [LBTagger.tagCall, h]
    · intro h
      simp [LBTagger.tagCall, h]

/-- C1 witness: the dispatch evaluated at the spec's literal identifiers. -/
theorem C1_witness :
    SingleResourceTagger.tag (pstr "i-0123abcd") = .delegate .ec2
    ∧ SingleResourceTagger.tag (pstr "arn:aws:rds:us-east-1:1234:db:mydb")
        = .delegate .rds
    ∧ SingleResourceTagger.tag (pstr "arn:aws:foo:us-east-1:1234:x")
        = .unsupported
    ∧ LBTagger.tagCall false
        (pstr "arn:aws:elasticloadbalancing:us-east-1:1:loadbalancer/app/x/abc")
        []
        = some (.alb
            [pstr "arn:aws:elasticloadbalancing:us-east-1:1:loadbalancer/app/x/abc"]
            (dict_to_aws_tags []))
    ∧ LBTagger.tagCall false
        (pstr "arn:aws:elasticloadbalancing:us-east-1:1:loadbalancer/classic-name")
        []
        = some (.elb
            [arn_to_name
              (pstr "arn:aws:elasticloadbalancing:us-east-1:1:loadbalancer/classic-name")]
            (dict_to_aws_tags [])) :=
  ⟨C1_single_resource_dispatch.2.1 _ (by decide),
   C1_single_resource_dispatch.2.2.1 _ .rds (by decide) (by decide) (by decide),
   C1_single_resource_dispatch.2.2.2.1 _ (by decide) (by decide)
     (Or.inr (Or.inr (by decide))),
   (C1_single_resource_dispatch.2.2.2.2 _ []).1 (by decide),
   (C1_single_resource_dispatch.2.2.2.2 _ []).2 (by decide)⟩

/-! ## Claim C3: "not found" absorption -/

/-- C3: the managed-database, load-balancer, and cache-cluster taggers absorb
exactly their own "not found" client-error code — the diagnostic is printed
and the operation returns normally — and re-raise a client error with any
other code unmodified; the file-system tagger absorbs nothing and re-raises
every client error, its own "not found" codes included. -/
theorem C3_not_found_absorption :
    (RDSTagger.tagResult (.error (.clientError (pstr "DBInstanceNotFound")))
        = .returned true)
    ∧ (∀ code : PyStr, code ≠ pstr "DBInstanceNotFound" →
        RDSTagger.tagResult (.error (.clientError code))
          = .raised (.clientError code))
    ∧ (LBTagger.tagResult (.error (.clientError (pstr "LoadBalancerNotFound")))
        = .returned true)
    ∧ (∀ code : PyStr, code ≠ pstr "LoadBalancerNotFound" →
        LBTagger.tagResult (.error (.clientError code))
          = .raised (.clientError code))
    ∧ (ElasticacheTagger.tagResult
        (.error (.clientError (pstr "CacheClusterNotFound"))) = .returned true)
    ∧ (∀ code : PyStr, code ≠ pstr "CacheClusterNotFound" →
        ElasticacheTagger.tagResult (.error (.clientError code))
          = .raised (.clientError code))
    ∧ (∀ code : PyStr,
        EFSTagger.tagResult (.error (.clientError code))
          = .raised (.clientError code)) := by
  refine ⟨by decide, ?_, by decide, ?_, by decide, ?_, ?_⟩
  · intro code h
    simp [RDSTagger.tagResult, absorbNotFound, h]
  · intro code h
    simp [LBTagger.tagResult, absorbNotFound, h]
  · intro code h
    simp [ElasticacheTagger.tagResult, absorbNotFound, h]
  · intro code
    simp [EFSTagger.tagResult]

/-- C3 witness: concrete non-"not found" codes propagate; the EFS tagger
re-raises even a "not found"-style code. -/
theorem C3_witness :
    RDSTagger.tagResult (.error (.clientError (pstr "AccessDenied")))
        = .raised (.clientError (pstr "AccessDenied"))
    ∧ LBTagger.tagResult (.error (.clientError (pstr "Throttling")))
        = .raised (.clientError (pstr "Throttling"))
    ∧ ElasticacheTagger.tagResult (.error (.clientError (pstr "InvalidARN")))
        = .raised (.clientError (pstr "InvalidARN"))
    ∧ EFSTagger.tagResult (.error (.clientError (pstr "FileSystemNotFound")))
        = .raised (.clientError (pstr "FileSystemNotFound")) :=
  ⟨C3_not_found_absorption.2.1 _ (by decide),
   C3_not_found_absorption.2.2.2.1 _ (by decide),
   C3_not_found_absorption.2.2.2.2.2.1 _ (by decide),
   C3_not_found_absorption.2.2.2.2.2.2 _⟩

/-! ## Claims C8 and C10: compute-instance volume fan-out -/

/-- C8: for an instance present in the volume-association cache, the compute
tagger issues exactly one combined `create_tags` call whose resource list is
the instance followed by every cached volume, all with the identical
wire-translated tag set; with `dryrun` the remote call is suppressed. -/
theorem C8_ec2_volume_fanout :
    ∀ (volume_cache : List (PyStr × List PyStr)) (instance_id : PyStr)
      (vols : List PyStr) (tags : List (PyStr × PyStr)),
      alookup instance_id volume_cache = some vols →
        EC2Tagger.tagCall volume_cache false instance_id tags
          = some ⟨instance_id :: vols, dict_to_aws_tags tags⟩
        ∧ EC2Tagger.tagCall volume_cache true instance_id tags = none := by
  intro vc instance_id vols tags h
  constructor <;> simp [EC2Tagger.tagCall, h]

/-- C8 witness: a two-volume instance. -/
theorem C8_witness :
    EC2Tagger.tagCall [(pstr "i-abc", [pstr "vol-1", pstr "vol-2"])] false
        (pstr "i-abc") [(pstr "env", pstr "prod")]
      = some ⟨[pstr "i-abc", pstr "vol-1", pstr "vol-2"],
              dict_to_aws_tags [(pstr "env", pstr "prod")]⟩
    ∧ EC2Tagger.tagCall [(pstr "i-abc", [pstr "vol-1", pstr "vol-2"])] true
        (pstr "i-abc") [(pstr "env", pstr "prod")] = none :=
  C8_ec2_volume_fanout _ _ _ _ (by decide)

/-- C10: for an instance absent from the volume-association cache, the
compute tagger does not fail on the lookup (`dict.get` with default `[]`):
it issues the `create_tags` call for the instance alone, with an empty
volume fan-out. -/
theorem C10_ec2_uncached_instance :
    ∀ (volume_cache : List (PyStr × List PyStr)) (instance_id : PyStr)
      (tags : List (PyStr × PyStr)),
      alookup instance_id volume_cache = none →
      EC2Tagger.tagCall volume_cache false instance_id tags
        = some ⟨[instance_id], dict_to_aws_tags tags⟩ := by
  intro vc instance_id tags h
  simp [EC2Tagger.tagCall, h]

/-- C10 witness: an instance missing from a non-empty cache. -/
theorem C10_witness :
    EC2Tagger.tagCall [(pstr "i-old", [pstr "vol-1"])] false (pstr "i-new")
        [(pstr "env", pstr "prod")]
      = some ⟨[pstr "i-new"], dict_to_aws_tags [(pstr "env", pstr "prod")]⟩ :=
  C10_ec2_uncached_instance _ _ _ (by decide)

/-! ## Claim C2: retry policy -/

/-- C2: the retry policy wrapping every remote call.  (1) A failure is
classified retryable iff it is not a `ClientError` at all or it is a
`ClientError` with code `'RequestLimitExceeded'`.  (2) A non-rate-limit
client error is attempted exactly once and propagates immediately.  (3) A
rate-limit failure persisting beyond the 30-second total retry bound
propagates the last failure.  (4) A run of rate-limit failures that turns
into success while the bound still permits a retry (at most four backoff
sleeps) reports the success. -/
theorem C2_retry_policy :
    (∀ e : PyExn, is_retryable_exception e = true ↔
        (e = .otherError ∨ e = .clientError (pstr "RequestLimitExceeded")))
    ∧ (∀ (α : Type) (outcome : Nat → Except PyExn α) (c : PyStr),
        outcome 1 = .error (.clientError c) →
        c ≠ pstr "RequestLimitExceeded" →
        retryCall outcome = .error (.clientError c)
          ∧ retryAttempts outcome = 1)
    ∧ (∀ (α : Type) (outcome : Nat → Except PyExn α),
        (∀ n : Nat, outcome n = .error rateLimitExn) →
        retryCall outcome = .error rateLimitExn)
    ∧ (∀ (α : Type) (outcome : Nat → Except PyExn α) (k : Nat) (a : α),
        k ≤ 4 →
        (∀ n : Nat, 1 ≤ n → n ≤ k → outcome n = .error rateLimitExn) →
        outcome (k + 1) = .ok a →
        retryCall outcome = .ok a) := by
  refine ⟨?_, ?_, ?_, ?_⟩
  · intro e
    cases e with
    | otherError => simp [is_retryable_exception]
    | clientError code => simp [is_retryable_exception]
  · intro α outcome c h1 hc
    have hb : (c == pstr "RequestLimitExceeded") = false := by
      simpa using hc
    constructor <;>
      simp [retryCall, retryAttempts, retryLoop, h1, is_retryable_exception,
        List.elem, hb]
  · intro α outcome h
    simp [retryCall, retryLoop, h, is_retryable_exception, rateLimitExn,
      expWait]
  · intro α outcome k a hk h hsucc
    interval_cases k
    · simp [retryCall, retryLoop, hsucc]
    · have h1 := h 1 (by omega) (by omega)
      simp [retryCall, retryLoop, h1, hsucc, is_retryable_exception,
        rateLimitExn, expWait]
    · have h1 := h 1 (by omega) (by omega)
      have h2 := h 2 (by omega) (by omega)
      simp [retryCall, retryLoop, h1, h2, hsucc, is_retryable_exception,
        rateLimitExn, expWait]
    · have h1 := h 1 (by omega) (by omega)
      have h2 := h 2 (by omega) (by omega)
      have h3 := h 3 (by omega) (by omega)
      simp [retryCall, retryLoop, h1, h2, h3, hsucc, is_retryable_exception,
        rateLimitExn, expWait]
    · have h1 := h 1 (by omega) (by omega)
      have h2 := h 2 (by omega) (by omega)
      have h3 := h 3 (by omega) (by omega)
      have h4 := h 4 (by omega) (by omega)
      simp [retryCall, retryLoop, h1, h2, h3, h4, hsucc,
        is_retryable_exception, rateLimitExn, expWait]

/-- C2 witness: a non-rate-limit client error is propagated after one
attempt; a persistent rate-limit failure is propagated; a rate-limit
failure on the first attempt followed by success on the second succeeds. -/
theorem C2_witness :
    retryCall (fun _ =>
        (Except.error (.clientError (pstr "AccessDenied")) : Except PyExn Unit))
      = .error (.clientError (pstr "AccessDenied"))
    ∧ retryAttempts (fun _ =>
        (Except.error (.clientError (pstr "AccessDenied")) : Except PyExn Unit))
      = 1
    ∧ retryCall (fun _ => (Except.error rateLimitExn : Except PyExn Unit))
      = .error rateLimitExn
    ∧ retryCall (fun n =>
        if n = 1 then (Except.error rateLimitExn : Except PyExn Unit)
        else .ok ())
      = .ok () := by
  refine ⟨(C2_retry_policy.2.1 Unit _ _ rfl (by decide)).1,
    (C2_retry_policy.2.1 Unit _ _ rfl (by decide)).2,
    C2_retry_policy.2.2.1 Unit _ (fun n => rfl),
    C2_retry_policy.2.2.2 Unit _ 1 () (by omega) ?_ ?_⟩
  · intro n h1 h2
    have : n = 1 := by omega
    subst this
    rfl
  · rfl

/-! ## Claim C9: one dispatcher per region -/

theorem lookupTagger_self (st : TBState) (r : Option PyStr) :
    alookup r (lookupTagger st r).2.cache = some (lookupTagger st r).1 := by
  unfold lookupTagger
  cases h : alookup r st.cache with
  | some t => simp [h]
  | none => simp [alookup]

theorem lookupTagger_stable (st : TBState) (r r' : Option PyStr) (t : Nat)
    (h : alookup r st.cache = some t) :
    alookup r (lookupTagger st r').2.cache = some t := by
  unfold lookupTagger
  cases h' : alookup r' st.cache with
  | some _ => simpa using h
  | none =>
    have hne : r' ≠ r := by
      rintro rfl
      rw [h] at h'
      cases h'
    simpa [alookup, hne] using h

theorem runAssign_lookup (rs : List (Option PyStr)) :
    ∀ (st : TBState) (r : Option PyStr) (t : Nat),
      alookup r st.cache = some t →
      ∀ k : Nat, k < rs.length → rs.getD k none = r →
        (runAssign rs st).getD k 0 = t := by
  induction rs with
  | nil =>
    intro st r t _ k hk
    simp at hk
  | cons r' rs' ih =>
    intro st r t h k hk hr
    cases k with
    | zero =>
      simp only [List.getD_cons_zero] at hr
      subst hr
      simp only [runAssign, List.getD_cons_zero]
      unfold lookupTagger
      rw [h]
    | succ k' =>
      simp only [List.getD_cons_succ] at hr
      simp only [runAssign, List.getD_cons_succ]
      exact ih (lookupTagger st r').2 r t (lookupTagger_stable st r r' t h) k'
        (by simpa using hk) hr

theorem runAssign_same (rs : List (Option PyStr)) :
    ∀ (st : TBState) (i j : Nat), i < j → j < rs.length →
      rs.getD i none = rs.getD j none →
      (runAssign rs st).getD i 0 = (runAssign rs st).getD j 0 := by
  induction rs with
  | nil =>
    intro st i j hij hj
    simp at hj
  | cons r' rs' ih =>
    intro st i j hij hj heq
    cases i with
    | zero =>
      cases j with
      | zero => omega
      | succ j' =>
        simp only [List.getD_cons_zero, List.getD_cons_succ] at heq
        simp only [runAssign, List.getD_cons_zero, List.getD_cons_succ]
        exact (runAssign_lookup rs' (lookupTagger st r').2 r'
          (lookupTagger st r').1 (lookupTagger_self st r') j'
          (by simpa using hj) heq.symm).symm
    | succ i' =>
      cases j with
      | zero => omega
      | succ j' =>
        simp only [List.getD_cons_succ] at heq
        simp only [runAssign, List.getD_cons_succ]
        exact ih (lookupTagger st r').2 i' j' (by omega) (by simpa using hj) heq

theorem runConstructed_not_mem (rs : List (Option PyStr)) :
    ∀ (st : TBState) (r : Option PyStr) (t : Nat),
      alookup r st.cache = some t → r ∉ runConstructed rs st := by
  induction rs with
  | nil =>
    intro st r t _
    simp [runConstructed]
  | cons r' rs' ih =>
    intro st r t h
    unfold runConstructed
    cases h' : alookup r' st.cache with
    | some u => exact ih st r t h
    | none =>
      have hne : r' ≠ r := by
        rintro rfl
        rw [h] at h'
        cases h'
      simp only [List.mem_cons, not_or]
      refine ⟨fun hrr => hne hrr.symm, ?_⟩
      refine ih ⟨(r', st.counter) :: st.cache, st.counter + 1⟩ r t ?_
      simpa [alookup, hne] using h

theorem runConstructed_nodup (rs : List (Option PyStr)) :
    ∀ st : TBState, (runConstructed rs st).Nodup := by
  induction rs with
  | nil =>
    intro st
    simp [runConstructed]
  | cons r' rs' ih =>
    intro st
    unfold runConstructed
    cases h' : alookup r' st.cache with
    | some u => exact ih st
    | none =>
      refine List.nodup_cons.mpr ⟨?_, ih _⟩
      exact runConstructed_not_mem rs' ⟨(r', st.counter) :: st.cache,
        st.counter + 1⟩ r' st.counter (by simp [alookup])

theorem mem_runConstructed (rs : List (Option PyStr)) :
    ∀ (st : TBState) (r : Option PyStr), r ∈ rs →
      (∃ t, alookup r st.cache = some t) ∨ r ∈ runConstructed rs st := by
  induction rs with
  | nil =>
    intro st r hr
    simp at hr
  | cons r' rs' ih =>
    intro st r hr
    unfold runConstructed
    cases h' : alookup r' st.cache with
    | some t =>
      rcases List.mem_cons.mp hr with rfl | hr'
      · exact .inl ⟨t, h'⟩
      · exact ih st r hr'
    | none =>
      by_cases hrr : r = r'
      · subst hrr
        exact .inr (List.mem_cons_self _ _)
      · rcases List.mem_cons.mp hr with rfl | hr'
        · exact absurd rfl hrr
        · rcases ih ⟨(r', st.counter) :: st.cache, st.counter + 1⟩ r hr' with
            ⟨t, ht⟩ | hmem
          · rw [alookup_cons_ne r r' st.counter st.cache
              (fun hh => hrr hh.symm)] at ht
            exact .inl ⟨t, ht⟩
          · exact .inr (List.mem_cons.mpr (.inr hmem))

/-- C9: over an entire run of the tabular dispatcher starting from the empty
region cache, (1) the list of regions for which a dispatcher is constructed
has no duplicates (at most one construction per distinct effective region,
the unspecified sentinel included), (2) every region occurring among the
rows does get a dispatcher constructed (so the first row resolving to it
constructs and caches it), and (3) any two rows resolving to the same
effective region are served by the same cached dispatcher instance. -/
theorem C9_region_cache :
    (∀ rows : List (Option PyStr), (runConstructed rows initTBState).Nodup)
    ∧ (∀ (rows : List (Option PyStr)) (r : Option PyStr), r ∈ rows →
        r ∈ runConstructed rows initTBState)
    ∧ (∀ (rows : List (Option PyStr)) (i j : Nat), i < j → j < rows.length →
        rows.getD i none = rows.getD j none →
        (runAssign rows initTBState).getD i 0
          = (runAssign rows initTBState).getD j 0) := by
  refine ⟨fun rows => runConstructed_nodup rows initTBState, ?_, ?_⟩
  · intro rows r hr
    rcases mem_runConstructed rows initTBState r hr with ⟨t, ht⟩ | hmem
    · simp [initTBState, alookup] at ht
    · exact hmem
  · intro rows i j hij hj heq
    exact runAssign_same rows initTBState i j hij hj heq

/-- C9 witness: two rows with the same explicit region and one with the
sentinel: one construction per distinct region, and the repeated region
reuses the first row's dispatcher. -/
theorem C9_witness :
    (runConstructed [some (pstr "us-east-1"), some (pstr "us-east-1"), none]
        initTBState).Nodup
    ∧ some (pstr "us-east-1")
        ∈ runConstructed [some (pstr "us-east-1"), some (pstr "us-east-1"), none]
            initTBState
    ∧ (runAssign [some (pstr "us-east-1"), some (pstr "us-east-1"), none]
          initTBState).getD 0 0
        = (runAssign [some (pstr "us-east-1"), some (pstr "us-east-1"), none]
            initTBState).getD 1 0 :=
  ⟨C9_region_cache.1 _,
   C9_region_cache.2.1 _ _ (List.mem_cons_self _ _),
   C9_region_cache.2.2 _ 0 1 (by omega) (by simp) (by simp)⟩
